import Mathlib

/-!
Shallow embedding of `http-request-id` (src/index.ts): a Connect-style
middleware factory `requestId(options?)` whose returned handler resolves a
request identifier, optionally echoes it on the response, attaches it to the
request, and calls the continuation.

Modelling conventions:
- A Node header value (`req.headers[name] : string | string[] | undefined`)
  is `Option HeaderValue` with `HeaderValue` either a single string or a list.
- `req.headers` may be absent (`req.headers?.` in the source), hence
  `Option Headers`.
- JavaScript nullish coalescing `a ?? b` falls back only on
  `null`/`undefined`, never on the empty string; it is modelled by
  `Option.getD` on values that are `none` exactly when the JS value is
  nullish.
- `randomUUID()` is an external primitive; its return value for the one call
  a handler invocation can make is passed in as the `uuid` argument.
- The handler's side effects (response-header write, `req.requestId`
  assignment, continuation calls, generator calls) are collected in a
  `HandlerResult` record; `nextCalls` lists the arguments of every `next(...)`
  call in order, and `generatorCalls` / `uuidCalls` count invocations of the
  configured generator and of `randomUUID`.
-/

namespace HttpRequestId

/-- A value stored under one header name: a single string or (for repeated
headers surfaced by the transport) a list of strings. -/
inductive HeaderValue where
  | single (value : String)
  | multi (values : List String)
deriving DecidableEq, Repr

/-- A header collection as the JS object `req.headers`: string keys with
exact-key property lookup. -/
abbrev Headers := List (String × HeaderValue)

/-- `IncomingMessage`, restricted to the fields the middleware touches:
the (possibly absent) header object and the `requestId` extension field. -/
structure IncomingMessage where
  headers : Option Headers := none
  requestId : Option String := none
deriving DecidableEq, Repr

/-- `ServerResponse`, restricted to its header set. -/
structure ServerResponse where
  headers : List (String × String) := []
deriving DecidableEq, Repr

/-- `res.setHeader(name, value)`: set the header, overwriting any prior
value stored under that name. -/
def ServerResponse.setHeader (res : ServerResponse) (name value : String) :
    ServerResponse :=
  { res with headers := (name, value) :: res.headers.filter (fun p => p.1 != name) }

/-- Read back a response header by name. -/
def ServerResponse.getHeader (res : ServerResponse) (name : String) :
    Option String :=
  res.headers.lookup name

/-- `RequestIdOptions` (src/index.ts lines 20-43): all fields optional. -/
structure RequestIdOptions where
  generator : Option (IncomingMessage → String) := none
  headerName : Option String := none
  setResponseHeader : Option Bool := none

/-- Everything one handler invocation produced: the mutated request and
response, the arguments of every continuation call in order, and how many
times the configured generator and `randomUUID` were invoked. -/
structure HandlerResult where
  req : IncomingMessage
  res : ServerResponse
  nextCalls : List (Option String)
  generatorCalls : Nat
  uuidCalls : Nat
deriving DecidableEq, Repr

/-- Line 113: `const headerName = options?.headerName ?? "x-request-id"`. -/
def resolvedHeaderName (options : Option RequestIdOptions) : String :=
  (options.bind RequestIdOptions.headerName).getD "x-request-id"

/-- Line 114: `const setResponseHeader = options?.setResponseHeader ?? true`. -/
def setResponseHeaderOf (options : Option RequestIdOptions) : Bool :=
  (options.bind RequestIdOptions.setResponseHeader).getD true

/-- Line 122: `const generatedId = options?.generator?.(req) ?? randomUUID()`;
`uuid` is the value `randomUUID()` returns if it is called. -/
def generatedIdOf (options : Option RequestIdOptions) (uuid : String)
    (req : IncomingMessage) : String :=
  match options.bind RequestIdOptions.generator with
  | some g => g req
  | none => uuid

/-- How many times line 122 invokes the configured generator (the optional
call `options?.generator?.(req)` runs exactly when a generator is present). -/
def generatorCallsOf (options : Option RequestIdOptions) : Nat :=
  match options.bind RequestIdOptions.generator with
  | some _ => 1
  | none => 0

/-- How many times line 122 invokes `randomUUID` (the right operand of `??`
is evaluated exactly when the optional generator call was nullish). -/
def uuidCallsOf (options : Option RequestIdOptions) : Nat :=
  match options.bind RequestIdOptions.generator with
  | some _ => 0
  | none => 1

/-- Line 125: `const incomingHeader = req.headers?.[headerName]` — exact-key
property lookup of the resolved header name, `undefined` when `req.headers`
is absent or has no such key. -/
def incomingHeaderOf (options : Option RequestIdOptions)
    (req : IncomingMessage) : Option HeaderValue :=
  req.headers.bind (fun hs => hs.lookup (resolvedHeaderName options))

/-- Lines 126-128:
`Array.isArray(incomingHeader) ? incomingHeader?.[0] ?? generatedId
                               : incomingHeader ?? generatedId`.
`??` falls back only on `undefined`: a single value is kept verbatim (even
`""`), and for an array the first element is kept verbatim when it exists. -/
def resolveId (incomingHeader : Option HeaderValue) (generatedId : String) :
    String :=
  match incomingHeader with
  | some (HeaderValue.multi values) => values.head?.getD generatedId
  | some (HeaderValue.single value) => value
  | none => generatedId

/-- Line 126: `const requestIdValue = ...` for one invocation. -/
def requestIdValueOf (options : Option RequestIdOptions) (uuid : String)
    (req : IncomingMessage) : String :=
  resolveId (incomingHeaderOf options req) (generatedIdOf options uuid req)

/-- The middleware `requestId(options)` applied to one request (src/index.ts
lines 112-141): compute the candidate id, resolve against the incoming
header, optionally echo on the response, attach `req.requestId`, call
`next()` once with no error. -/
def requestId (options : Option RequestIdOptions) (uuid : String)
    (req : IncomingMessage) (res : ServerResponse) : HandlerResult :=
  let headerName := resolvedHeaderName options
  let requestIdValue := requestIdValueOf options uuid req
  { req := { req with requestId := some requestIdValue }
    res := if setResponseHeaderOf options then res.setHeader headerName requestIdValue
           else res
    nextCalls := [none]
    generatorCalls := generatorCallsOf options
    uuidCalls := uuidCallsOf options }

/-- ASCII lowercasing of one character, as Node's HTTP parser applies to the
names of incoming headers. -/
def lowerChar (c : Char) : Char :=
  if c.isUpper then Char.ofNat (c.toNat + 32) else c

/-- ASCII lowercasing of a header name. -/
def lowerName (s : String) : String :=
  String.mk (s.data.map lowerChar)

/-- The Node transport stores each header of the wire-level request in
`req.headers` under the lowercased header name; this models that
normalization, turning a wire header list into the `req.headers` object the
middleware actually sees. -/
def normalizeKeys (wire : List (String × HeaderValue)) : Headers :=
  wire.map (fun p => (lowerName p.1, p.2))

theorem ServerResponse.getHeader_setHeader (res : ServerResponse)
    (n v : String) : (res.setHeader n v).getHeader n = some v := by
  simp [ServerResponse.setHeader, ServerResponse.getHeader, List.lookup]

/-! Claim theorems. -/

/-- C1: whenever the configured header name resolves to a non-empty incoming
value — a single value `v`, or a multi-value list whose first element is `v` —
the handler attaches exactly `v` as `req.requestId`; the candidate-generated
identifier (whatever `uuid` or the configured generator produced) does not
influence the result. -/
theorem c1_header_precedence (options : Option RequestIdOptions)
    (uuid : String) (req : IncomingMessage) (res : ServerResponse)
    (v : String) (rest : List String) (hne : v ≠ "")
    (h : incomingHeaderOf options req = some (HeaderValue.single v) ∨
         incomingHeaderOf options req = some (HeaderValue.multi (v :: rest))) :
    (requestId options uuid req res).req.requestId = some v := by
  rcases h with h | h <;> simp [requestId, requestIdValueOf, resolveId, h]

/-- C1 witness: a request with header `x-request-id: "abc-123"` resolves to
`"abc-123"`, and one whose header carries the two values `["id-1", "id-2"]`
resolves to `"id-1"`. -/
theorem c1_header_precedence_witness :
    (requestId none "gen-1"
      { headers := some [("x-request-id", HeaderValue.single "abc-123")] }
      {}).req.requestId = some "abc-123" ∧
    (requestId none "gen-1"
      { headers := some [("x-request-id", HeaderValue.multi ["id-1", "id-2"])] }
      {}).req.requestId = some "id-1" :=
  ⟨c1_header_precedence none "gen-1"
      { headers := some [("x-request-id", HeaderValue.single "abc-123")] }
      {} "abc-123" [] (by decide) (Or.inl (by decide)),
   c1_header_precedence none "gen-1"
      { headers := some [("x-request-id", HeaderValue.multi ["id-1", "id-2"])] }
      {} "id-1" ["id-2"] (by decide) (Or.inr (by decide))⟩

/-- C2 counterexample: line 128 uses nullish coalescing (`??`), which keeps
the empty string; a request with header `x-request-id: ""` and candidate
`"gen-1"` gets `req.requestId = ""`, not the generated value — refuting the
claimed empty-value fallback. -/
theorem c2_empty_value_kept_counterexample :
    (requestId none "gen-1"
      { headers := some [("x-request-id", HeaderValue.single "")] }
      {}).req.requestId = some "" ∧
    (requestId none "gen-1"
      { headers := some [("x-request-id", HeaderValue.single "")] }
      {}).req.requestId ≠ some "gen-1" := by decide

/-- C2 amended: an empty-string incoming value (single, or first of a
multi-value list) is kept verbatim as `req.requestId`; the candidate-generated
identifier is used only when the value is absent — `req.headers` missing, the
key missing, or an empty multi-value list. -/
theorem c2_fallback_only_when_nullish (options : Option RequestIdOptions)
    (uuid : String) (req : IncomingMessage) (res : ServerResponse) :
    (incomingHeaderOf options req = some (HeaderValue.single "") →
      (requestId options uuid req res).req.requestId = some "") ∧
    (∀ rest : List String,
      incomingHeaderOf options req = some (HeaderValue.multi ("" :: rest)) →
      (requestId options uuid req res).req.requestId = some "") ∧
    (incomingHeaderOf options req = none →
      (requestId options uuid req res).req.requestId =
        some (generatedIdOf options uuid req)) ∧
    (incomingHeaderOf options req = some (HeaderValue.multi []) →
      (requestId options uuid req res).req.requestId =
        some (generatedIdOf options uuid req)) := by
  refine ⟨fun h => ?_, fun rest h => ?_, fun h => ?_, fun h => ?_⟩ <;>
    simp [requestId, requestIdValueOf, resolveId, h]

/-- C2 amended witness: concrete instances of the empty-kept and absent-key
cases. -/
theorem c2_fallback_only_when_nullish_witness :
    (requestId none "gen-9"
      { headers := some [("x-request-id", HeaderValue.single "")] }
      {}).req.requestId = some "" ∧
    (requestId none "gen-9" { headers := some [] } {}).req.requestId =
      some (generatedIdOf none "gen-9" { headers := some [] }) :=
  ⟨(c2_fallback_only_when_nullish none "gen-9"
      { headers := some [("x-request-id", HeaderValue.single "")] } {}).1
      (by decide),
   (c2_fallback_only_when_nullish none "gen-9"
      { headers := some [] } {}).2.2.1 (by decide)⟩

/-- C3 counterexample: the lookup `req.headers?.[headerName]` on line 125 is
an exact key match. With the configured name `"X-Correlation-Id"` and the
transport storing `"x-correlation-id"` (as Node does), the incoming value
`"abc"` is missed and the generated `"gen"` is attached, while the
exactly-matching lowercase configuration resolves `"abc"`. -/
theorem c3_exact_key_lookup_counterexample :
    (requestId (some { headerName := some "X-Correlation-Id" }) "gen"
      { headers := some [("x-correlation-id", HeaderValue.single "abc")] }
      {}).req.requestId = some "gen" ∧
    (requestId (some { headerName := some "x-correlation-id" }) "gen"
      { headers := some [("x-correlation-id", HeaderValue.single "abc")] }
      {}).req.requestId = some "abc" ∧
    some ("gen" : String) ≠ some "abc" := by
  refine ⟨by decide, by decide, by decide⟩

/-- C3 amended: the lookup is exact and case-sensitive on the configured
name; case-insensitivity with respect to the wire capitalization holds only
through the transport's lowercasing of stored header names — two wire
requests whose header names agree up to ASCII case are indistinguishable to
the handler once the transport normalizes them. -/
theorem c3_case_insensitive_via_transport (options : Option RequestIdOptions)
    (uuid : String) (wire₁ wire₂ : List (String × HeaderValue))
    (res : ServerResponse)
    (h : wire₁.map (fun p => (lowerName p.1, p.2)) =
         wire₂.map (fun p => (lowerName p.1, p.2))) :
    requestId options uuid { headers := some (normalizeKeys wire₁) } res =
      requestId options uuid { headers := some (normalizeKeys wire₂) } res := by
  unfold normalizeKeys
  rw [h]

/-- C3 amended witness: the wire headers `X-Request-Id: abc` and
`x-REQUEST-id: abc` yield identical handler outcomes after transport
normalization. -/
theorem c3_case_insensitive_via_transport_witness :
    requestId none "u-1"
      { headers := some (normalizeKeys [("X-Request-Id", HeaderValue.single "abc")]) }
      {} =
    requestId none "u-1"
      { headers := some (normalizeKeys [("x-REQUEST-id", HeaderValue.single "abc")]) }
      {} :=
  c3_case_insensitive_via_transport none "u-1"
    [("X-Request-Id", HeaderValue.single "abc")]
    [("x-REQUEST-id", HeaderValue.single "abc")] {} (by decide)

/-- C4: on every request the candidate identifier is computed
unconditionally — the configured generator and `randomUUID` are together
invoked exactly once, with the configured generator invoked exactly when one
is present, whatever the incoming headers hold. -/
theorem c4_generator_always_invoked_once (options : Option RequestIdOptions)
    (uuid : String) (req : IncomingMessage) (res : ServerResponse) :
    (requestId options uuid req res).generatorCalls +
      (requestId options uuid req res).uuidCalls = 1 ∧
    (requestId options uuid req res).generatorCalls =
      (if (options.bind RequestIdOptions.generator).isSome then 1 else 0) := by
  cases h : options.bind RequestIdOptions.generator <;>
    simp [requestId, generatorCallsOf, uuidCallsOf, h]

/-- C5: the response header under the configured name is written exactly when
`setResponseHeader` is enabled — when enabled the response becomes
`setHeader` of the resolved identifier (overwriting any prior value, so
reading that name afterwards yields the resolved identifier); when disabled
the response is left unchanged — and in both cases `req.requestId` is
attached. -/
theorem c5_response_header_iff_enabled (options : Option RequestIdOptions)
    (uuid : String) (req : IncomingMessage) (res : ServerResponse) :
    (requestId options uuid req res).res =
      (if setResponseHeaderOf options then
        res.setHeader (resolvedHeaderName options)
          (requestIdValueOf options uuid req)
      else res) ∧
    (requestId options uuid req res).res.getHeader (resolvedHeaderName options) =
      (if setResponseHeaderOf options then
        some (requestIdValueOf options uuid req)
      else res.getHeader (resolvedHeaderName options)) ∧
    (requestId options uuid req res).req.requestId =
      some (requestIdValueOf options uuid req) := by
  cases h : setResponseHeaderOf options <;>
    simp [requestId, h, ServerResponse.getHeader_setHeader]

/-- C6: on every call path — every configuration, every request, every
response, whatever the default generator returns — the continuation is
invoked exactly once and with no error argument. -/
theorem c6_next_called_once_no_error (options : Option RequestIdOptions)
    (uuid : String) (req : IncomingMessage) (res : ServerResponse) :
    (requestId options uuid req res).nextCalls = [none] := rfl

/-- C7: a single resolved string is computed once and reused for every
effect: `req.requestId` holds it, and the response header under the
configured name holds the identical string when echoing is enabled (and is
untouched otherwise). -/
theorem c7_single_value_reused (options : Option RequestIdOptions)
    (uuid : String) (req : IncomingMessage) (res : ServerResponse) :
    (requestId options uuid req res).req.requestId =
      some (requestIdValueOf options uuid req) ∧
    (requestId options uuid req res).res.getHeader (resolvedHeaderName options) =
      (if setResponseHeaderOf options then
        (requestId options uuid req res).req.requestId
      else res.getHeader (resolvedHeaderName options)) := by
  cases h : setResponseHeaderOf options <;>
    simp [requestId, h, ServerResponse.getHeader_setHeader]

/-- C8: resolution is deterministic — with a configured (deterministic)
generator, two invocations on the same request headers agree on
`req.requestId` whatever each invocation's `randomUUID` value or prior
response state, and agree on the echoed header value when echoing is
enabled. -/
theorem c8_deterministic_resolution (options : Option RequestIdOptions)
    (g : IncomingMessage → String) (uuid₁ uuid₂ : String)
    (req : IncomingMessage) (res₁ res₂ : ServerResponse)
    (h : options.bind RequestIdOptions.generator = some g) :
    (requestId options uuid₁ req res₁).req.requestId =
      (requestId options uuid₂ req res₂).req.requestId ∧
    (setResponseHeaderOf options = true →
      (requestId options uuid₁ req res₁).res.getHeader (resolvedHeaderName options) =
        (requestId options uuid₂ req res₂).res.getHeader (resolvedHeaderName options)) := by
  constructor
  · simp [requestId, requestIdValueOf, generatedIdOf, h]
  · intro he
    simp [requestId, requestIdValueOf, generatedIdOf, h, he,
      ServerResponse.getHeader_setHeader]

/-- C8 witness: the fixed generator `fun _ => "fixed-id"` resolves
identically across two invocations with different `randomUUID` values. -/
theorem c8_deterministic_resolution_witness :
    (requestId (some { generator := some (fun _ => "fixed-id") }) "u-1"
      {} {}).req.requestId =
    (requestId (some { generator := some (fun _ => "fixed-id") }) "u-2"
      {} {}).req.requestId :=
  (c8_deterministic_resolution (some { generator := some (fun _ => "fixed-id") })
    (fun _ => "fixed-id") "u-1" "u-2" {} {} {} rfl).1

/-- C9 counterexample: the claim's clause that an empty-value fallback
applies to incoming header values is false — with a configured generator
returning `"gen-2"` and incoming header `x-request-id: ""`, the attached
identifier is `""`, not the generator's output. -/
theorem c9_no_incoming_empty_fallback_counterexample :
    (requestId (some { generator := some (fun _ => "gen-2") }) "u"
      { headers := some [("x-request-id", HeaderValue.single "")] }
      {}).req.requestId = some "" ∧
    (requestId (some { generator := some (fun _ => "gen-2") }) "u"
      { headers := some [("x-request-id", HeaderValue.single "")] }
      {}).req.requestId ≠ some "gen-2" := by
  refine ⟨rfl, by decide⟩

/-- C9 amended: generator output is not validated — when the configured
generator returns `""` and no value is present under the configured header
name, `req.requestId` is `""` and, when echoing is enabled, the response
header is `""`; no empty-value fallback exists for generator output (nor for
incoming values: fallback happens only on absent values). -/
theorem c9_generator_output_not_validated (options : Option RequestIdOptions)
    (g : IncomingMessage → String) (uuid : String) (req : IncomingMessage)
    (res : ServerResponse)
    (hg : options.bind RequestIdOptions.generator = some g)
    (hempty : g req = "")
    (habsent : incomingHeaderOf options req = none) :
    (requestId options uuid req res).req.requestId = some "" ∧
    (setResponseHeaderOf options = true →
      (requestId options uuid req res).res.getHeader (resolvedHeaderName options) =
        some "") := by
  constructor
  · simp [requestId, requestIdValueOf, resolveId, generatedIdOf, hg, hempty,
      habsent]
  · intro he
    simp [requestId, requestIdValueOf, resolveId, generatedIdOf, hg, hempty,
      habsent, he, ServerResponse.getHeader_setHeader]

/-- C9 amended witness: a generator that always returns `""` on a headerless
request yields `req.requestId = ""` and echoes `""`. -/
theorem c9_generator_output_not_validated_witness :
    (requestId (some { generator := some (fun _ => "") }) "u-3" {} {}).req.requestId =
      some "" ∧
    (requestId (some { generator := some (fun _ => "") }) "u-3" {} {}).res.getHeader
      (resolvedHeaderName (some { generator := some (fun _ => "") })) = some "" :=
  have h := c9_generator_output_not_validated
    (some { generator := some (fun _ => "") }) (fun _ => "") "u-3" {} {}
    rfl rfl rfl
  ⟨h.1, h.2 rfl⟩

/-- C10: the handler is total when the header collection is entirely absent:
with `req.headers` undefined the lookup behaves as header-absent, the
candidate-generated identifier is attached as `req.requestId`, and the
continuation is still invoked once with no error. -/
theorem c10_total_when_headers_absent (options : Option RequestIdOptions)
    (uuid : String) (req : IncomingMessage) (res : ServerResponse)
    (h : req.headers = none) :
    (requestId options uuid req res).req.requestId =
      some (generatedIdOf options uuid req) ∧
    (requestId options uuid req res).nextCalls = [none] := by
  simp [requestId, requestIdValueOf, incomingHeaderOf, resolveId, h]

/-- C10 witness: a request literal with no headers object. -/
theorem c10_total_when_headers_absent_witness :
    (requestId none "u-7" {} {}).req.requestId =
      some (generatedIdOf none "u-7" {}) ∧
    (requestId none "u-7" {} {}).nextCalls = [none] :=
  c10_total_when_headers_absent none "u-7" {} {} rfl

end HttpRequestId
